import Mathlib

/-!
Verification of the server-side authentication core of the Aspia remote-desktop
peer protocol (`peer::ServerAuthenticator`, `source/peer/server_authenticator.cc`).

The state machine handlers are embedded as pure functions over an explicit
handshake-state record.  External collaborators that live outside the verified
translation unit (hash functions, the ECDH key pair, the SRP group table, the
user list, the random generator, UTF-8 → UTF-16 decoding) are parameters of an
environment record, so every theorem is quantified over their behaviour; the
SRP arithmetic helpers with a documented formula are defined from that formula.
-/

namespace Aspia

/-- A byte string (`base::ByteArray` / `std::string` payloads). -/
abbrev Bytes := List Nat

/-- `base::BigNum`: an arbitrary-precision integer that may be invalid
(`isValid() = false`), modelled as `Option Nat` with `none` invalid. -/
abbrev BigNum := Option Nat

/-- Value of a big-endian byte string. -/
def bytesToNat (l : Bytes) : Nat :=
  l.foldl (fun acc b => acc * 256 + b) 0

/-- Modelled from the spec: `BigNum::fromByteArray` / `BigNum::fromStdString`
(not under src/) parse a big-endian byte string; the empty string yields an
invalid `BigNum`. -/
def BigNum.fromBytes (l : Bytes) : BigNum :=
  if l = [] then none else some (bytesToNat l)

/-- Minimal-length big-endian bytes of `n`, with explicit fuel so that the
recursion is structural (the fuel `n` itself always suffices). -/
def natToBytesFuel : Nat → Nat → Bytes
  | 0, _ => []
  | fuel + 1, n => if n = 0 then [] else natToBytesFuel fuel (n / 256) ++ [n % 256]

/-- Modelled from the spec: "All byte serializations are big-endian,
minimal-length"; the value 0 serializes to the empty string. -/
def natToBytes (n : Nat) : Bytes :=
  natToBytesFuel n n

/-- Modelled from the spec: `BigNum::toByteArray` / `toStdString`; an invalid
number serializes to the empty string. -/
def BigNum.toBytes : BigNum → Bytes
  | none => []
  | some n => natToBytes n

/-- Number of set bits, with structural fuel.  Models
`base::BitSet<uint32_t>::count()` (header not under src/, a `std::bitset`
wrapper). -/
def popcountFuel : Nat → Nat → Nat
  | 0, _ => 0
  | fuel + 1, n => if n = 0 then 0 else n % 2 + popcountFuel fuel (n / 2)

/-- Popcount of a natural number. -/
def popcount (n : Nat) : Nat :=
  popcountFuel n n

/-- `ErrorCode` values delivered through `finish`. -/
inductive ErrorCode
  | SUCCESS
  | PROTOCOL_ERROR
  | ACCESS_DENIED
  | SESSION_DENIED
  | UNKNOWN_ERROR
deriving DecidableEq, Repr

/-- `ServerAuthenticator::AnonymousAccess`. -/
inductive AnonymousAccess
  | DISABLE
  | ENABLE
deriving DecidableEq, Repr

/-- `ServerAuthenticator::InternalState`. -/
inductive InternalState
  | READ_CLIENT_HELLO
  | SEND_SERVER_HELLO
  | READ_IDENTIFY
  | SEND_SERVER_KEY_EXCHANGE
  | READ_CLIENT_KEY_EXCHANGE
  | SEND_SESSION_CHALLENGE
  | READ_SESSION_RESPONSE
deriving DecidableEq, Repr

/-- `proto::ENCRYPTION_AES256_GCM` (wire value 1). -/
def ENCRYPTION_AES256_GCM : Nat := 1

/-- `proto::ENCRYPTION_CHACHA20_POLY1305` (wire value 2). -/
def ENCRYPTION_CHACHA20_POLY1305 : Nat := 2

/-- `proto::IDENTIFY_SRP` (wire value 1). -/
def IDENTIFY_SRP : Nat := 1

/-- `proto::IDENTIFY_ANONYMOUS` (wire value 2). -/
def IDENTIFY_ANONYMOUS : Nat := 2

/-- Parsed `proto::ClientHello`. -/
structure ClientHello where
  encryption : Nat
  identify : Nat
  public_key : Bytes
  iv : Bytes
deriving DecidableEq, Repr

/-- `proto::ServerHello` as emitted; `iv = []` means the field is unset. -/
structure ServerHello where
  encryption : Nat
  iv : Bytes
deriving DecidableEq, Repr

/-- Parsed `proto::SrpIdentify`: the username as UTF-8 bytes. -/
structure SrpIdentify where
  username : Bytes
deriving DecidableEq, Repr

/-- `proto::SrpServerKeyExchange` as emitted. -/
structure SrpServerKeyExchange where
  number : Bytes
  generator : Bytes
  salt : Bytes
  b : Bytes
  iv : Bytes
deriving DecidableEq, Repr

/-- Parsed `proto::SrpClientKeyExchange`. -/
structure SrpClientKeyExchange where
  a : Bytes
  iv : Bytes
deriving DecidableEq, Repr

/-- `proto::SessionChallenge`, restricted to the protocol-relevant field
(version / OS / computer name / CPU cores are descriptive only). -/
structure SessionChallenge where
  session_types : Nat
deriving DecidableEq, Repr

/-- Parsed `proto::SessionResponse`, restricted to the protocol-relevant
field. -/
structure SessionResponse where
  session_type : Nat
deriving DecidableEq, Repr

/-- A stored user record (`peer::User`). -/
structure User where
  name : String
  group : String
  salt : Bytes
  verifier : Bytes
  sessions : Nat
  flags : Nat
deriving DecidableEq, Repr

/-- `User::ENABLED` flag bit. -/
def User.ENABLED : Nat := 1

/-- Modelled from the spec: `SrpMath::verify_A_mod_N(A, N) = (A mod N) ≠ 0`;
an invalid operand fails the check. -/
def verify_A_mod_N (A N : BigNum) : Prop :=
  match A, N with
  | some a, some n => a % n ≠ 0
  | _, _ => False

instance (A N : BigNum) : Decidable (verify_A_mod_N A N) := by
  unfold verify_A_mod_N
  cases A <;> cases N <;> infer_instance

/-- Modelled from the spec:
`SrpMath::calcServerKey(A, v, u, b, N) = (A · v^u)^b mod N`. -/
def calcServerKey (A v u b N : BigNum) : BigNum :=
  match A, v, u, b, N with
  | some a, some vv, some uu, some bb, some n => some ((a * vv ^ uu) ^ bb % n)
  | _, _, _, _, _ => none

/-- Environment of external collaborators consumed by one handshake.  All of
them live outside the verified translation unit; the spec fixes only their
signatures (and for the hashes, their names), so they are kept abstract here. -/
structure Env where
  /-- `base::CPUID::hasAesNi()`. -/
  hasAesNi : Bool
  /-- `key_pair_.sessionKey(peer_public_key)`: ECDH shared secret, empty on
  failure. -/
  sessionKey : Bytes → Bytes
  /-- `base::GenericHash::hash(BLAKE2s256, ·)`. -/
  blake2s256 : Bytes → Bytes
  /-- Incremental BLAKE2b-512 over the concatenation of the added data. -/
  blake2b512 : Bytes → Bytes
  /-- `base::utf16FromUtf8`: empty result on empty or undecodable input. -/
  utf16FromUtf8 : Bytes → String
  /-- `user_list_->find`: `none` models the invalid-sentinel user. -/
  userFind : String → Option User
  /-- `user_list_->seedKey()`. -/
  seedKey : Bytes
  /-- `base::pairByGroup`: the SRP group table, `(N, g)` byte strings by id. -/
  pairByGroup : String → Option (Bytes × Bytes)
  /-- `base::kSrpNgPair_8192`: the 8192-bit standard group constants. -/
  ngPair8192 : Bytes × Bytes
  /-- `base::SrpMath::calc_v(I, p, s, N, g)`. -/
  calc_v : String → Bytes → BigNum → BigNum → BigNum → BigNum
  /-- `base::SrpMath::calc_B(b, N, g, v)`. -/
  calc_B : BigNum → BigNum → BigNum → BigNum → BigNum
  /-- `base::SrpMath::calc_u(A, B, N)`. -/
  calc_u : BigNum → BigNum → BigNum → BigNum
  /-- `base::Random::byteArray(128)` drawn in `onIdentify`. -/
  random128 : Bytes
  /-- `base::Random::byteArray(kIvSize)` drawn in `onIdentify`. -/
  random12 : Bytes
  /-- Return value of the `onSessionKeyChanged` hook. -/
  onSessionKeyChangedResult : Bool

/-- The handshake-local state of a `ServerAuthenticator`. -/
structure SAState where
  internal_state : InternalState
  key_pair_valid : Bool
  anonymous_access : AnonymousAccess
  session_types : Nat
  identify : Nat
  encryption : Nat
  encrypt_iv : Bytes
  decrypt_iv : Bytes
  session_key : Bytes
  user_name : String
  N : BigNum
  g : BigNum
  s : BigNum
  v : BigNum
  b : BigNum
  B : BigNum
  A : BigNum
  session_type : Nat
deriving DecidableEq, Repr

/-- Messages a handler can emit via `sendMessage`. -/
inductive OutMsg
  | serverHello (m : ServerHello)
  | srpServerKeyExchange (m : SrpServerKeyExchange)
  | sessionChallenge (m : SessionChallenge)
deriving DecidableEq, Repr

/-- Observable outcome of one handler invocation: the mutated state, the
error delivered through `finish` (if any), the message handed to
`sendMessage` (if any), and whether the `onSessionKeyChanged` hook ran. -/
structure StepResult where
  st : SAState
  finished : Option ErrorCode
  sent : Option OutMsg
  keyChanged : Bool
deriving DecidableEq, Repr

/-- A handler that calls `finish(FROM_HERE, e)` and returns. -/
def finishWith (st : SAState) (e : ErrorCode) : StepResult :=
  { st := st, finished := some e, sent := none, keyChanged := false }

/-- The `if (key_pair_.isValid())` block of `onClientHello`: records the client
iv as `decrypt_iv_`, enforces that public key and iv are both present or both
absent, and on both present derives the ECDH pre-key.  Returns the mutated
state, the error (if any), and the iv to place in the `ServerHello`
(`[]` = leave unset). -/
def clientHelloEcdh (env : Env) (st : SAState) (ch : ClientHello) :
    SAState × Option ErrorCode × Bytes :=
  if st.key_pair_valid then
    let st1 := { st with decrypt_iv := ch.iv }
    if ¬((ch.public_key = []) ↔ (st1.decrypt_iv = [])) then
      (st1, some .PROTOCOL_ERROR, [])
    else if ch.public_key ≠ [] ∧ st1.decrypt_iv ≠ [] then
      let temp := env.sessionKey ch.public_key
      if temp = [] then (st1, some .UNKNOWN_ERROR, [])
      else
        let sk := env.blake2s256 temp
        if sk = [] then (st1, some .UNKNOWN_ERROR, [])
        else ({ st1 with session_key := sk }, none, st1.encrypt_iv)
    else (st1, none, [])
  else (st, none, [])

/-- Cipher selection in `onClientHello`: AES256-GCM iff the client offered it
and the CPU has AES-NI, otherwise ChaCha20-Poly1305. -/
def chooseEncryption (env : Env) (client_mask : Nat) : Nat :=
  if client_mask &&& ENCRYPTION_AES256_GCM ≠ 0 ∧ env.hasAesNi then
    ENCRYPTION_AES256_GCM
  else
    ENCRYPTION_CHACHA20_POLY1305

/-- Tail of `onClientHello` after the identify switch: the key-pair block,
cipher selection, and emission of the `ServerHello`. -/
def clientHelloTail (env : Env) (st : SAState) (ch : ClientHello) : StepResult :=
  match clientHelloEcdh env st ch with
  | (st1, some e, _) => finishWith st1 e
  | (st1, none, hello_iv) =>
    let enc := chooseEncryption env ch.encryption
    { st := { st1 with internal_state := .SEND_SERVER_HELLO, encryption := enc }
      finished := none
      sent := some (.serverHello { encryption := enc, iv := hello_iv })
      keyChanged := false }

/-- `ServerAuthenticator::onClientHello`; `none` is an unparsable buffer. -/
def onClientHello (env : Env) (st : SAState) (msg : Option ClientHello) : StepResult :=
  match msg with
  | none => finishWith st .PROTOCOL_ERROR
  | some ch =>
    if ch.encryption &&& ENCRYPTION_AES256_GCM = 0 ∧
        ch.encryption &&& ENCRYPTION_CHACHA20_POLY1305 = 0 then
      finishWith st .PROTOCOL_ERROR
    else
      let st1 := { st with identify := ch.identify }
      if ch.identify = IDENTIFY_SRP then
        clientHelloTail env st1 ch
      else if ch.identify = IDENTIFY_ANONYMOUS then
        if st1.anonymous_access ≠ .ENABLE then finishWith st1 .ACCESS_DENIED
        else clientHelloTail env st1 ch
      else
        finishWith st1 .PROTOCOL_ERROR

/-- The phantom-verifier branch of `onIdentify`: decoy parameters derived from
the seed key and the requested username. -/
def phantomBranch (env : Env) (st : SAState) (username_utf8 : Bytes) : SAState :=
  let h := env.blake2b512 (env.seedKey ++ username_utf8)
  let N0 := BigNum.fromBytes env.ngPair8192.1
  let g0 := BigNum.fromBytes env.ngPair8192.2
  let s0 := BigNum.fromBytes h
  { st with
    session_types := 0
    N := N0
    g := g0
    s := s0
    v := env.calc_v st.user_name env.seedKey s0 N0 g0 }

/-- The `do { ... } while (false)` lookup block of `onIdentify`: a valid and
enabled user with a known SRP group loads the stored record, every other case
falls through to the phantom-verifier branch. -/
def identifyLookup (env : Env) (st : SAState) (username_utf8 : Bytes) : SAState :=
  match env.userFind st.user_name with
  | some user =>
    if user.flags &&& User.ENABLED ≠ 0 then
      let st1 := { st with session_types := user.sessions }
      match env.pairByGroup user.group with
      | some ng =>
        { st1 with
          N := BigNum.fromBytes ng.1
          g := BigNum.fromBytes ng.2
          s := BigNum.fromBytes user.salt
          v := BigNum.fromBytes user.verifier }
      | none => phantomBranch env st1 username_utf8
    else phantomBranch env st username_utf8
  | none => phantomBranch env st username_utf8

/-- `ServerAuthenticator::onIdentify`. -/
def onIdentify (env : Env) (st : SAState) (msg : Option SrpIdentify) : StepResult :=
  match msg with
  | none => finishWith st .PROTOCOL_ERROR
  | some m =>
    let st1 := { st with user_name := env.utf16FromUtf8 m.username }
    if st1.user_name = "" then finishWith st1 .PROTOCOL_ERROR
    else
      let st2 := identifyLookup env st1 m.username
      let b0 := BigNum.fromBytes env.random128
      let st3 := { st2 with b := b0, B := env.calc_B b0 st2.N st2.g st2.v }
      if st3.N = none ∨ st3.g = none ∨ st3.s = none ∨ st3.B = none then
        finishWith st3 .PROTOCOL_ERROR
      else
        let st4 := { st3 with
          internal_state := .SEND_SERVER_KEY_EXCHANGE
          encrypt_iv := env.random12 }
        { st := st4
          finished := none
          sent := some (.srpServerKeyExchange
            { number := BigNum.toBytes st4.N
              generator := BigNum.toBytes st4.g
              salt := BigNum.toBytes st4.s
              b := BigNum.toBytes st4.B
              iv := env.random12 })
          keyChanged := false }

/-- `ServerAuthenticator::createSrpKey`: empty on a failed `A mod N` check,
otherwise the big-endian bytes of the SRP server secret. -/
def createSrpKey (env : Env) (st : SAState) : Bytes :=
  if ¬verify_A_mod_N st.A st.N then []
  else
    let u := env.calc_u st.A st.B st.N
    BigNum.toBytes (calcServerKey st.A st.v u st.b st.N)

/-- `ServerAuthenticator::doSessionChallenge`, restricted to the
protocol-relevant field. -/
def sessionChallengeMsg (st : SAState) : OutMsg :=
  .sessionChallenge { session_types := st.session_types }

/-- `ServerAuthenticator::onClientKeyExchange`. -/
def onClientKeyExchange (env : Env) (st : SAState)
    (msg : Option SrpClientKeyExchange) : StepResult :=
  match msg with
  | none => finishWith st .PROTOCOL_ERROR
  | some m =>
    let st1 := { st with A := BigNum.fromBytes m.a, decrypt_iv := m.iv }
    if st1.A = none ∨ st1.decrypt_iv = [] then finishWith st1 .PROTOCOL_ERROR
    else
      let srp_key := createSrpKey env st1
      if srp_key = [] then finishWith st1 .UNKNOWN_ERROR
      else
        if st1.encryption = ENCRYPTION_AES256_GCM ∨
            st1.encryption = ENCRYPTION_CHACHA20_POLY1305 then
          let mixin := (if st1.session_key = [] then [] else st1.session_key) ++ srp_key
          let st2 := { st1 with session_key := env.blake2s256 mixin }
          if env.onSessionKeyChangedResult = false then
            { st := st2, finished := none, sent := none, keyChanged := true }
          else
            { st := { st2 with internal_state := .SEND_SESSION_CHALLENGE }
              finished := none
              sent := some (sessionChallengeMsg st2)
              keyChanged := true }
        else finishWith st1 .UNKNOWN_ERROR

/-- `ServerAuthenticator::onSessionResponse`.  `BitSet<uint32_t>::value()`
returns the underlying integer, so `session_type_` records the single-bit mask
itself. -/
def onSessionResponse (st : SAState) (msg : Option SessionResponse) : StepResult :=
  match msg with
  | none => finishWith st .PROTOCOL_ERROR
  | some m =>
    if popcount m.session_type ≠ 1 then finishWith st .PROTOCOL_ERROR
    else
      let st1 := { st with session_type := m.session_type }
      if st1.session_types &&& st1.session_type = 0 then
        finishWith st1 .SESSION_DENIED
      else
        finishWith st1 .SUCCESS

/-- Outer `Authenticator::State`. -/
inductive OuterState
  | STOPPED
  | PENDING
  | DONE
deriving DecidableEq, Repr

/-- The configuration a `ServerAuthenticator` holds before `start()`. -/
structure Config where
  outer_state : OuterState
  key_pair_valid : Bool
  encrypt_iv : Bytes
  anonymous_access : AnonymousAccess
  session_types : Nat
deriving DecidableEq, Repr

/-- Collaborators consumed by the configuration setters. -/
structure CfgEnv where
  /-- Validity of `base::KeyPair::fromPrivateKey` on the given bytes. -/
  fromPrivateKeyValid : Bytes → Bool
  /-- `base::Random::byteArray(kIvSize)` drawn in `setPrivateKey`. -/
  randomIv : Bytes

/-- `ServerAuthenticator::setPrivateKey`. -/
def setPrivateKey (env : CfgEnv) (cfg : Config) (private_key : Bytes) :
    Bool × Config :=
  if cfg.outer_state ≠ .STOPPED then (false, cfg)
  else if private_key = [] then (false, cfg)
  else
    let cfg1 := { cfg with key_pair_valid := env.fromPrivateKeyValid private_key }
    if cfg1.key_pair_valid = false then (false, cfg1)
    else
      let cfg2 := { cfg1 with encrypt_iv := env.randomIv }
      if cfg2.encrypt_iv = [] then (false, cfg2)
      else (true, cfg2)

/-- `ServerAuthenticator::setAnonymousAccess`. -/
def setAnonymousAccess (cfg : Config) (access : AnonymousAccess)
    (session_types : Nat) : Bool × Config :=
  if cfg.outer_state ≠ .STOPPED then (false, cfg)
  else
    match access with
    | .ENABLE =>
      if cfg.key_pair_valid = false then (false, cfg)
      else if session_types = 0 then (false, cfg)
      else
        (true, { cfg with
          session_types := session_types
          anonymous_access := .ENABLE })
    | .DISABLE =>
      (true, { cfg with session_types := 0, anonymous_access := .DISABLE })

/-- One configuration call. -/
inductive CfgCall
  | setPriv (k : Bytes)
  | setAnon (a : AnonymousAccess) (m : Nat)
deriving DecidableEq, Repr

/-- Dispatch one configuration call. -/
def applyCall (env : CfgEnv) (cfg : Config) : CfgCall → Bool × Config
  | .setPriv k => setPrivateKey env cfg k
  | .setAnon a m => setAnonymousAccess cfg a m

/-- Run a sequence of configuration calls, `none` as soon as one fails. -/
def applyCalls (env : CfgEnv) (cfg : Config) : List CfgCall → Option Config
  | [] => some cfg
  | c :: cs =>
    match applyCall env cfg c with
    | (true, cfg1) => applyCalls env cfg1 cs
    | (false, _) => none

/-- The configuration invariant of the spec: anonymous access enabled forces a
valid key pair and a nonzero session mask; disabled forces a zero mask. -/
def goodConfig (cfg : Config) : Prop :=
  (cfg.anonymous_access = .ENABLE →
      cfg.key_pair_valid = true ∧ cfg.session_types ≠ 0) ∧
  (cfg.anonymous_access = .DISABLE → cfg.session_types = 0)

instance (cfg : Config) : Decidable (goodConfig cfg) := by
  unfold goodConfig
  infer_instance

/-- A concrete environment used to evaluate the handlers on closed inputs. -/
def env0 : Env :=
  { hasAesNi := false
    sessionKey := fun _ => [9, 9]
    blake2s256 := fun l => 7 :: l
    blake2b512 := fun l => 8 :: l
    utf16FromUtf8 := fun l => if l = [] then "" else "u"
    userFind := fun _ => none
    seedKey := [1]
    pairByGroup := fun _ => none
    ngPair8192 := ([2], [3])
    calc_v := fun _ _ _ _ _ => some 4
    calc_B := fun _ _ _ _ => some 5
    calc_u := fun _ _ _ => some 1
    random128 := [6]
    random12 := [1, 2]
    onSessionKeyChangedResult := true }

/-- A freshly started handshake state. -/
def st0 : SAState :=
  { internal_state := .READ_CLIENT_HELLO
    key_pair_valid := false
    anonymous_access := .DISABLE
    session_types := 0
    identify := 0
    encryption := 0
    encrypt_iv := []
    decrypt_iv := []
    session_key := []
    user_name := ""
    N := none
    g := none
    s := none
    v := none
    b := none
    B := none
    A := none
    session_type := 0 }

/-- A state that has completed the SRP server key exchange using a small test
group, awaiting the client key exchange. -/
def stA0 : SAState :=
  { st0 with
    internal_state := .READ_CLIENT_KEY_EXCHANGE
    encryption := ENCRYPTION_CHACHA20_POLY1305
    N := some 7
    g := some 5
    s := some 1
    v := some 2
    b := some 1
    B := some 3 }

/-- Claim C2: in `READ_SESSION_RESPONSE`, a parsable `SessionResponse` whose
mask does not have exactly one set bit finishes with `PROTOCOL_ERROR`; a
single-bit mask disjoint from the effective `session_types` finishes with
`SESSION_DENIED`; otherwise the handshake finishes with `SUCCESS`. -/
theorem onSessionResponse_outcomes (st : SAState) (m : SessionResponse) :
    (popcount m.session_type ≠ 1 →
      (onSessionResponse st (some m)).finished = some .PROTOCOL_ERROR) ∧
    (popcount m.session_type = 1 → st.session_types &&& m.session_type = 0 →
      (onSessionResponse st (some m)).finished = some .SESSION_DENIED) ∧
    (popcount m.session_type = 1 → st.session_types &&& m.session_type ≠ 0 →
      (onSessionResponse st (some m)).finished = some .SUCCESS) := by
  unfold onSessionResponse
  refine ⟨fun h1 => ?_, fun h1 h2 => ?_, fun h1 h2 => ?_⟩
  · simp [h1, finishWith]
  · simp [h1, h2, finishWith]
  · simp [h1, h2, finishWith]

/-- Closed witness for `onSessionResponse_outcomes`. -/
theorem onSessionResponse_outcomes_witness :
    (onSessionResponse { st0 with session_types := 5 }
        (some { session_type := 3 })).finished = some .PROTOCOL_ERROR ∧
    (onSessionResponse { st0 with session_types := 5 }
        (some { session_type := 8 })).finished = some .SESSION_DENIED ∧
    (onSessionResponse { st0 with session_types := 5 }
        (some { session_type := 4 })).finished = some .SUCCESS :=
  ⟨(onSessionResponse_outcomes { st0 with session_types := 5 }
      { session_type := 3 }).1 (by decide),
   (onSessionResponse_outcomes { st0 with session_types := 5 }
      { session_type := 8 }).2.1 (by decide) (by decide),
   (onSessionResponse_outcomes { st0 with session_types := 5 }
      { session_type := 4 }).2.2 (by decide) (by decide)⟩

/-- Claim C5 counterexample: for the accepted response with mask `0b0100` the
recorded `session_type_` is the mask value 4, not the bit index 2 —
`BitSet::value()` returns the underlying integer. -/
theorem sessionType_records_mask_not_index :
    (onSessionResponse { st0 with session_types := 5 }
        (some { session_type := 4 })).finished = some .SUCCESS ∧
    (onSessionResponse { st0 with session_types := 5 }
        (some { session_type := 4 })).st.session_type = 4 ∧
    (4 : Nat) ≠ 2 := by
  decide

/-- Claim C5 (amended): for every accepted `SessionResponse` whose mask has
exactly one set bit, the recorded `session_type` equals the mask itself (the
value of the single set bit, e.g. `0b0100` yields 4), and the permission test
is the bitwise AND of `session_types` with that mask. -/
theorem sessionType_recording (st : SAState) (m : SessionResponse)
    (h1 : popcount m.session_type = 1) :
    (onSessionResponse st (some m)).st.session_type = m.session_type ∧
    ((onSessionResponse st (some m)).finished = some .SUCCESS ↔
      st.session_types &&& m.session_type ≠ 0) ∧
    ((onSessionResponse st (some m)).finished = some .SESSION_DENIED ↔
      st.session_types &&& m.session_type = 0) := by
  unfold onSessionResponse
  by_cases h2 : st.session_types &&& m.session_type = 0 <;>
    simp [h1, h2, finishWith]

/-- Closed witness for `sessionType_recording`. -/
theorem sessionType_recording_witness :
    (onSessionResponse { st0 with session_types := 5 }
        (some { session_type := 4 })).st.session_type = 4 ∧
    ((onSessionResponse { st0 with session_types := 5 }
        (some { session_type := 4 })).finished = some .SUCCESS ↔
      (5 : Nat) &&& 4 ≠ 0) ∧
    ((onSessionResponse { st0 with session_types := 5 }
        (some { session_type := 4 })).finished = some .SESSION_DENIED ↔
      (5 : Nat) &&& 4 = 0) :=
  sessionType_recording { st0 with session_types := 5 } { session_type := 4 }
    (by decide)

/-- Once the cipher-mask and identify checks pass, `onClientHello` continues
with the key-pair block and cipher selection. -/
theorem onClientHello_dispatch (env : Env) (st : SAState) (ch : ClientHello)
    (hmask : ¬(ch.encryption &&& ENCRYPTION_AES256_GCM = 0 ∧
        ch.encryption &&& ENCRYPTION_CHACHA20_POLY1305 = 0))
    (hid : ch.identify = IDENTIFY_SRP ∨
        (ch.identify = IDENTIFY_ANONYMOUS ∧ st.anonymous_access = .ENABLE)) :
    onClientHello env st (some ch) =
      clientHelloTail env { st with identify := ch.identify } ch := by
  unfold onClientHello
  rcases hid with h | ⟨h, ha⟩
  · simp [hmask, h]
  · simp [hmask, h, ha, IDENTIFY_SRP, IDENTIFY_ANONYMOUS]

/-- If `onClientHello` did not finish with an error, the cipher-mask and
identify checks passed. -/
theorem onClientHello_none_checks (env : Env) (st : SAState) (ch : ClientHello)
    (hok : (onClientHello env st (some ch)).finished = none) :
    ¬(ch.encryption &&& ENCRYPTION_AES256_GCM = 0 ∧
        ch.encryption &&& ENCRYPTION_CHACHA20_POLY1305 = 0) ∧
    (ch.identify = IDENTIFY_SRP ∨
        (ch.identify = IDENTIFY_ANONYMOUS ∧ st.anonymous_access = .ENABLE)) := by
  unfold onClientHello at hok
  by_cases hmask : ch.encryption &&& ENCRYPTION_AES256_GCM = 0 ∧
      ch.encryption &&& ENCRYPTION_CHACHA20_POLY1305 = 0
  · simp [hmask, finishWith] at hok
  · refine ⟨hmask, ?_⟩
    by_cases h1 : ch.identify = IDENTIFY_SRP
    · exact Or.inl h1
    · by_cases h2 : ch.identify = IDENTIFY_ANONYMOUS
      · by_cases h3 : st.anonymous_access = .ENABLE
        · exact Or.inr ⟨h2, h3⟩
        · simp only [IDENTIFY_SRP, IDENTIFY_ANONYMOUS] at h1 h2 hok
          simp [hmask, h1, h2, h3, finishWith] at hok
      · simp only [IDENTIFY_SRP, IDENTIFY_ANONYMOUS] at h1 h2 hok
        simp [hmask, h1, h2, finishWith] at hok

/-- If the tail of `onClientHello` did not finish with an error, it recorded
the negotiated cipher and emitted the matching `ServerHello`. -/
theorem clientHelloTail_none (env : Env) (st : SAState) (ch : ClientHello)
    (hok : (clientHelloTail env st ch).finished = none) :
    (clientHelloTail env st ch).st.encryption = chooseEncryption env ch.encryption ∧
    ∃ hiv, (clientHelloTail env st ch).sent = some (.serverHello
      { encryption := chooseEncryption env ch.encryption, iv := hiv }) := by
  unfold clientHelloTail at hok ⊢
  rcases h : clientHelloEcdh env st ch with ⟨st1, oe, hiv⟩
  cases oe with
  | some e =>
    rw [h] at hok
    simp [finishWith] at hok
  | none =>
    exact ⟨rfl, hiv, rfl⟩

/-- The negotiated cipher is AES256-GCM exactly when the client offered it and
the CPU has AES-NI, and is one of the two supported ciphers. -/
theorem chooseEncryption_spec (env : Env) (mask : Nat) :
    (chooseEncryption env mask = ENCRYPTION_AES256_GCM ↔
      (mask &&& ENCRYPTION_AES256_GCM ≠ 0 ∧ env.hasAesNi = true)) ∧
    (chooseEncryption env mask = ENCRYPTION_AES256_GCM ∨
      chooseEncryption env mask = ENCRYPTION_CHACHA20_POLY1305) := by
  unfold chooseEncryption
  by_cases h : mask &&& ENCRYPTION_AES256_GCM ≠ 0 ∧ env.hasAesNi = true
  · simp [h]
  · simp [h, ENCRYPTION_AES256_GCM, ENCRYPTION_CHACHA20_POLY1305]

/-- Claim C3: for every `ClientHello` that passes the earlier checks, the
cipher recorded in `encryption_` and echoed in the `ServerHello` is
`AES256_GCM` iff the client's mask includes `AES256_GCM` and the host CPU
reports AES hardware acceleration, and is `CHACHA20_POLY1305` in every other
case. -/
theorem cipher_selection (env : Env) (st : SAState) (ch : ClientHello)
    (hok : (onClientHello env st (some ch)).finished = none) :
    ((onClientHello env st (some ch)).st.encryption = ENCRYPTION_AES256_GCM ↔
      (ch.encryption &&& ENCRYPTION_AES256_GCM ≠ 0 ∧ env.hasAesNi = true)) ∧
    ((onClientHello env st (some ch)).st.encryption = ENCRYPTION_AES256_GCM ∨
      (onClientHello env st (some ch)).st.encryption = ENCRYPTION_CHACHA20_POLY1305) ∧
    (∃ hiv, (onClientHello env st (some ch)).sent = some (.serverHello
      { encryption := (onClientHello env st (some ch)).st.encryption
        iv := hiv })) := by
  obtain ⟨hmask, hid⟩ := onClientHello_none_checks env st ch hok
  rw [onClientHello_dispatch env st ch hmask hid] at hok ⊢
  obtain ⟨henc, hiv, hsent⟩ := clientHelloTail_none env _ ch hok
  refine ⟨?_, ?_, ⟨hiv, ?_⟩⟩
  · rw [henc]
    exact (chooseEncryption_spec env ch.encryption).1
  · rw [henc]
    exact (chooseEncryption_spec env ch.encryption).2
  · rw [hsent, henc]

/-- Closed witness for `cipher_selection`. -/
theorem cipher_selection_witness :
    (onClientHello env0 st0 (some
        { encryption := 3, identify := 1, public_key := [], iv := [] })).finished
      = none ∧
    ((onClientHello env0 st0 (some
        { encryption := 3, identify := 1, public_key := [], iv := [] })).st.encryption
        = ENCRYPTION_AES256_GCM ↔
      ((3 : Nat) &&& ENCRYPTION_AES256_GCM ≠ 0 ∧ env0.hasAesNi = true)) :=
  ⟨by decide,
   (cipher_selection env0 st0
      { encryption := 3, identify := 1, public_key := [], iv := [] }
      (by decide)).1⟩

/-- Claim C8: a `ClientHello` with `identify = ANONYMOUS` while anonymous
access is not enabled finishes with `ACCESS_DENIED` and sends nothing; an
identify value outside `{SRP, ANONYMOUS}` finishes with `PROTOCOL_ERROR` and
sends nothing. -/
theorem anonymous_access_control (env : Env) (st : SAState) (ch : ClientHello)
    (hmask : ¬(ch.encryption &&& ENCRYPTION_AES256_GCM = 0 ∧
        ch.encryption &&& ENCRYPTION_CHACHA20_POLY1305 = 0)) :
    (ch.identify = IDENTIFY_ANONYMOUS → st.anonymous_access ≠ .ENABLE →
      (onClientHello env st (some ch)).finished = some .ACCESS_DENIED ∧
      (onClientHello env st (some ch)).sent = none) ∧
    (ch.identify ≠ IDENTIFY_SRP → ch.identify ≠ IDENTIFY_ANONYMOUS →
      (onClientHello env st (some ch)).finished = some .PROTOCOL_ERROR ∧
      (onClientHello env st (some ch)).sent = none) := by
  unfold onClientHello
  constructor
  · intro h2 h3
    simp [hmask, h2, IDENTIFY_SRP, IDENTIFY_ANONYMOUS, h3, finishWith]
  · intro h1 h2
    simp only [IDENTIFY_SRP, IDENTIFY_ANONYMOUS] at h1 h2
    simp [hmask, h1, h2, finishWith, IDENTIFY_SRP, IDENTIFY_ANONYMOUS]

/-- Closed witness for `anonymous_access_control`. -/
theorem anonymous_access_control_witness :
    ((onClientHello env0 st0 (some
        { encryption := 3, identify := 2, public_key := [], iv := [] })).finished
        = some .ACCESS_DENIED ∧
      (onClientHello env0 st0 (some
        { encryption := 3, identify := 2, public_key := [], iv := [] })).sent = none) ∧
    ((onClientHello env0 st0 (some
        { encryption := 3, identify := 9, public_key := [], iv := [] })).finished
        = some .PROTOCOL_ERROR ∧
      (onClientHello env0 st0 (some
        { encryption := 3, identify := 9, public_key := [], iv := [] })).sent = none) :=
  ⟨(anonymous_access_control env0 st0
      { encryption := 3, identify := 2, public_key := [], iv := [] }
      (by decide)).1 (by decide) (by decide),
   (anonymous_access_control env0 st0
      { encryption := 3, identify := 9, public_key := [], iv := [] }
      (by decide)).2 (by decide) (by decide)⟩

/-- Claim C10: when no private key is configured, `onClientHello` ignores the
client's `public_key` and `iv` entirely — `decrypt_iv_` and `session_key_` are
untouched, no error is raised, the `ServerHello` carries no iv, and cipher
selection proceeds as if the fields were absent. -/
theorem clientHello_without_keypair (env : Env) (st : SAState) (ch : ClientHello)
    (hkp : st.key_pair_valid = false)
    (hmask : ¬(ch.encryption &&& ENCRYPTION_AES256_GCM = 0 ∧
        ch.encryption &&& ENCRYPTION_CHACHA20_POLY1305 = 0))
    (hid : ch.identify = IDENTIFY_SRP ∨
        (ch.identify = IDENTIFY_ANONYMOUS ∧ st.anonymous_access = .ENABLE)) :
    (onClientHello env st (some ch)).finished = none ∧
    (onClientHello env st (some ch)).st.session_key = st.session_key ∧
    (onClientHello env st (some ch)).st.decrypt_iv = st.decrypt_iv ∧
    (onClientHello env st (some ch)).sent = some (.serverHello
      { encryption := chooseEncryption env ch.encryption, iv := [] }) := by
  rw [onClientHello_dispatch env st ch hmask hid]
  unfold clientHelloTail clientHelloEcdh
  simp [hkp]

/-- Closed witness for `clientHello_without_keypair`: the client sends a
public key and an iv, yet no ECDH runs and no error is raised. -/
theorem clientHello_without_keypair_witness :
    (onClientHello env0 st0 (some
        { encryption := 3, identify := 1, public_key := [4], iv := [5] })).finished
      = none ∧
    (onClientHello env0 st0 (some
        { encryption := 3, identify := 1, public_key := [4], iv := [5] })).st.session_key
      = st0.session_key ∧
    (onClientHello env0 st0 (some
        { encryption := 3, identify := 1, public_key := [4], iv := [5] })).st.decrypt_iv
      = st0.decrypt_iv ∧
    (onClientHello env0 st0 (some
        { encryption := 3, identify := 1, public_key := [4], iv := [5] })).sent
      = some (.serverHello { encryption := chooseEncryption env0 3, iv := [] }) :=
  clientHello_without_keypair env0 st0
    { encryption := 3, identify := 1, public_key := [4], iv := [5] }
    (by decide) (by decide) (Or.inl (by decide))

/-- Claim C6: with a valid key pair, a `ClientHello` in which exactly one of
`public_key` and `iv` is empty finishes with `PROTOCOL_ERROR`; with both
non-empty, an empty ECDH shared secret or an empty BLAKE2s-256 digest finishes
with `UNKNOWN_ERROR`, and otherwise `session_key_` becomes the BLAKE2s-256
digest of the shared secret, the client iv is recorded as `decrypt_iv_`, and
the pre-generated `encrypt_iv_` is included in the `ServerHello`. -/
theorem clientHello_ecdh_envelope (env : Env) (st : SAState) (ch : ClientHello)
    (hkp : st.key_pair_valid = true)
    (hmask : ¬(ch.encryption &&& ENCRYPTION_AES256_GCM = 0 ∧
        ch.encryption &&& ENCRYPTION_CHACHA20_POLY1305 = 0))
    (hid : ch.identify = IDENTIFY_SRP ∨
        (ch.identify = IDENTIFY_ANONYMOUS ∧ st.anonymous_access = .ENABLE)) :
    (¬((ch.public_key = []) ↔ (ch.iv = [])) →
      (onClientHello env st (some ch)).finished = some .PROTOCOL_ERROR) ∧
    (ch.public_key ≠ [] → ch.iv ≠ [] →
      (env.sessionKey ch.public_key = [] →
        (onClientHello env st (some ch)).finished = some .UNKNOWN_ERROR) ∧
      (env.sessionKey ch.public_key ≠ [] →
        (env.blake2s256 (env.sessionKey ch.public_key) = [] →
          (onClientHello env st (some ch)).finished = some .UNKNOWN_ERROR) ∧
        (env.blake2s256 (env.sessionKey ch.public_key) ≠ [] →
          (onClientHello env st (some ch)).finished = none ∧
          (onClientHello env st (some ch)).st.session_key =
            env.blake2s256 (env.sessionKey ch.public_key) ∧
          (onClientHello env st (some ch)).st.decrypt_iv = ch.iv ∧
          (onClientHello env st (some ch)).sent = some (.serverHello
            { encryption := chooseEncryption env ch.encryption
              iv := st.encrypt_iv })))) := by
  rw [onClientHello_dispatch env st ch hmask hid]
  refine ⟨fun hne => ?_,
    fun hpk hiv => ⟨fun hshared => ?_,
      fun hshared => ⟨fun hhash => ?_, fun hhash => ?_⟩⟩⟩ <;>
    unfold clientHelloTail clientHelloEcdh
  · simp [hkp, hne, finishWith]
  · simp [hkp, hpk, hiv, hshared, finishWith]
  · simp [hkp, hpk, hiv, hshared, hhash, finishWith]
  · simp [hkp, hpk, hiv, hshared, hhash, finishWith]

/-- A handshake state holding a valid key pair and a pre-generated
`encrypt_iv_`. -/
def stK0 : SAState :=
  { st0 with key_pair_valid := true, encrypt_iv := [10, 11] }

/-- Closed witness for `clientHello_ecdh_envelope`: a mismatched envelope is
rejected, a complete one derives the ECDH pre-key. -/
theorem clientHello_ecdh_envelope_witness :
    (onClientHello env0 stK0 (some
        { encryption := 3, identify := 1, public_key := [4], iv := [] })).finished
      = some .PROTOCOL_ERROR ∧
    ((onClientHello env0 stK0 (some
        { encryption := 3, identify := 1, public_key := [4], iv := [5] })).finished
      = none ∧
    (onClientHello env0 stK0 (some
        { encryption := 3, identify := 1, public_key := [4], iv := [5] })).st.session_key
      = env0.blake2s256 (env0.sessionKey [4]) ∧
    (onClientHello env0 stK0 (some
        { encryption := 3, identify := 1, public_key := [4], iv := [5] })).st.decrypt_iv
      = [5] ∧
    (onClientHello env0 stK0 (some
        { encryption := 3, identify := 1, public_key := [4], iv := [5] })).sent
      = some (.serverHello
        { encryption := chooseEncryption env0 3, iv := stK0.encrypt_iv })) :=
  ⟨(clientHello_ecdh_envelope env0 stK0
      { encryption := 3, identify := 1, public_key := [4], iv := [] }
      (by decide) (by decide) (Or.inl (by decide))).1 (by decide),
   (((clientHello_ecdh_envelope env0 stK0
      { encryption := 3, identify := 1, public_key := [4], iv := [5] }
      (by decide) (by decide) (Or.inl (by decide))).2
        (by decide) (by decide)).2 (by decide)).2 (by decide)⟩

/-- The condition under which `onIdentify` takes the phantom-verifier branch:
the lookup fails, or the user is not enabled, or its SRP group id is absent
from the group table. -/
def phantomTaken (env : Env) (uname : String) : Prop :=
  match env.userFind uname with
  | none => True
  | some user =>
    user.flags &&& User.ENABLED = 0 ∨ env.pairByGroup user.group = none

instance (env : Env) (uname : String) : Decidable (phantomTaken env uname) := by
  unfold phantomTaken
  cases env.userFind uname <;> infer_instance

/-- After a non-empty username decode, the lookup-derived fields of the state
survive `onIdentify` unchanged through the final validity check. -/
theorem onIdentify_lookup_fields (env : Env) (st : SAState) (m : SrpIdentify)
    (hname : env.utf16FromUtf8 m.username ≠ "") :
    (onIdentify env st (some m)).st.session_types =
      (identifyLookup env { st with user_name := env.utf16FromUtf8 m.username }
        m.username).session_types ∧
    (onIdentify env st (some m)).st.N =
      (identifyLookup env { st with user_name := env.utf16FromUtf8 m.username }
        m.username).N ∧
    (onIdentify env st (some m)).st.g =
      (identifyLookup env { st with user_name := env.utf16FromUtf8 m.username }
        m.username).g ∧
    (onIdentify env st (some m)).st.s =
      (identifyLookup env { st with user_name := env.utf16FromUtf8 m.username }
        m.username).s ∧
    (onIdentify env st (some m)).st.v =
      (identifyLookup env { st with user_name := env.utf16FromUtf8 m.username }
        m.username).v := by
  unfold onIdentify
  simp [hname]
  split <;> simp [finishWith]

/-- Claim C1: for a username whose lookup fails, or whose record is not
enabled, or whose SRP group id is unknown, `onIdentify` takes the
phantom-verifier branch — `session_types_` becomes 0, `(N, g)` the 8192-bit
standard group, the salt the BLAKE2b-512 of the seed key concatenated with the
UTF-8 username, and the verifier `SrpMath::calc_v` of the username, seed key,
salt and group; in every other case the record's sessions mask, group, salt
and verifier are used. -/
theorem identify_phantom_verifier (env : Env) (st : SAState) (m : SrpIdentify)
    (hname : env.utf16FromUtf8 m.username ≠ "") :
    (phantomTaken env (env.utf16FromUtf8 m.username) →
      (onIdentify env st (some m)).st.session_types = 0 ∧
      (onIdentify env st (some m)).st.N = BigNum.fromBytes env.ngPair8192.1 ∧
      (onIdentify env st (some m)).st.g = BigNum.fromBytes env.ngPair8192.2 ∧
      (onIdentify env st (some m)).st.s =
        BigNum.fromBytes (env.blake2b512 (env.seedKey ++ m.username)) ∧
      (onIdentify env st (some m)).st.v =
        env.calc_v (env.utf16FromUtf8 m.username) env.seedKey
          (BigNum.fromBytes (env.blake2b512 (env.seedKey ++ m.username)))
          (BigNum.fromBytes env.ngPair8192.1)
          (BigNum.fromBytes env.ngPair8192.2)) ∧
    (∀ user ng,
      env.userFind (env.utf16FromUtf8 m.username) = some user →
      user.flags &&& User.ENABLED ≠ 0 →
      env.pairByGroup user.group = some ng →
      (onIdentify env st (some m)).st.session_types = user.sessions ∧
      (onIdentify env st (some m)).st.N = BigNum.fromBytes ng.1 ∧
      (onIdentify env st (some m)).st.g = BigNum.fromBytes ng.2 ∧
      (onIdentify env st (some m)).st.s = BigNum.fromBytes user.salt ∧
      (onIdentify env st (some m)).st.v = BigNum.fromBytes user.verifier) := by
  obtain ⟨e1, e2, e3, e4, e5⟩ := onIdentify_lookup_fields env st m hname
  rw [e1, e2, e3, e4, e5]
  constructor
  · intro hph
    unfold phantomTaken at hph
    unfold identifyLookup phantomBranch
    rcases hu : env.userFind (env.utf16FromUtf8 m.username) with _ | user
    · simp [hu]
    · rw [hu] at hph
      rcases hph with hfl | hgr
      · simp [hu, hfl]
      · by_cases hfl : user.flags &&& User.ENABLED = 0
        · simp [hu, hfl]
        · simp [hu, hfl, hgr]
  · intro user ng hu hfl hgr
    unfold identifyLookup
    simp [hu, hfl, hgr]

/-- A stored user record used by closed witnesses. -/
def user1 : User :=
  { name := "u", group := "g1", salt := [13], verifier := [14],
    sessions := 6, flags := 1 }

/-- An environment whose user list holds `user1` under name "u". -/
def envU : Env :=
  { env0 with
    userFind := fun s => if s = "u" then some user1 else none
    pairByGroup := fun s => if s = "g1" then some ([21], [22]) else none }

/-- Closed witness for `identify_phantom_verifier`: an unknown user takes the
phantom branch, a known enabled user with a known group loads its record. -/
theorem identify_phantom_verifier_witness :
    ((onIdentify env0 st0 (some { username := [2] })).st.session_types = 0 ∧
     (onIdentify env0 st0 (some { username := [2] })).st.N =
       BigNum.fromBytes env0.ngPair8192.1 ∧
     (onIdentify env0 st0 (some { username := [2] })).st.g =
       BigNum.fromBytes env0.ngPair8192.2 ∧
     (onIdentify env0 st0 (some { username := [2] })).st.s =
       BigNum.fromBytes (env0.blake2b512 (env0.seedKey ++ [2])) ∧
     (onIdentify env0 st0 (some { username := [2] })).st.v =
       env0.calc_v (env0.utf16FromUtf8 [2]) env0.seedKey
         (BigNum.fromBytes (env0.blake2b512 (env0.seedKey ++ [2])))
         (BigNum.fromBytes env0.ngPair8192.1)
         (BigNum.fromBytes env0.ngPair8192.2)) ∧
    ((onIdentify envU st0 (some { username := [2] })).st.session_types =
       user1.sessions ∧
     (onIdentify envU st0 (some { username := [2] })).st.N =
       BigNum.fromBytes [21] ∧
     (onIdentify envU st0 (some { username := [2] })).st.g =
       BigNum.fromBytes [22] ∧
     (onIdentify envU st0 (some { username := [2] })).st.s =
       BigNum.fromBytes user1.salt ∧
     (onIdentify envU st0 (some { username := [2] })).st.v =
       BigNum.fromBytes user1.verifier) :=
  ⟨(identify_phantom_verifier env0 st0 { username := [2] } (by decide)).1
      (by decide),
   (identify_phantom_verifier envU st0 { username := [2] } (by decide)).2
      user1 ([21], [22]) (by decide) (by decide) (by decide)⟩

/-- Claim C4 counterexample: an `SrpClientKeyExchange` whose `A` parses to a
value with `A ≡ 0 (mod N)` makes the handshake finish with `UNKNOWN_ERROR`,
not `PROTOCOL_ERROR` — `createSrpKey` returns an empty key and
`onClientKeyExchange` maps that to `UNKNOWN_ERROR`. -/
theorem srp_zero_A_not_protocol_error :
    (onClientKeyExchange env0 stA0 (some { a := [0], iv := [1] })).finished
      = some .UNKNOWN_ERROR ∧
    (onClientKeyExchange env0 stA0 (some { a := [0], iv := [1] })).finished
      ≠ some .PROTOCOL_ERROR := by
  decide

/-- Claim C4 (amended): an `SrpIdentify` whose username decodes to the empty
string finishes with `PROTOCOL_ERROR`; an `SrpClientKeyExchange` with an empty
iv finishes with `PROTOCOL_ERROR`; one whose `A` parses to a value divisible
by `N` finishes with `UNKNOWN_ERROR`. -/
theorem srp_input_validation (env : Env) (st : SAState) (mid : SrpIdentify)
    (mkx : SrpClientKeyExchange) :
    (env.utf16FromUtf8 mid.username = "" →
      (onIdentify env st (some mid)).finished = some .PROTOCOL_ERROR) ∧
    (mkx.iv = [] →
      (onClientKeyExchange env st (some mkx)).finished = some .PROTOCOL_ERROR) ∧
    (∀ a n, BigNum.fromBytes mkx.a = some a → st.N = some n → a % n = 0 →
      mkx.iv ≠ [] →
      (onClientKeyExchange env st (some mkx)).finished = some .UNKNOWN_ERROR) := by
  refine ⟨fun hname => ?_, fun hiv => ?_, fun a n ha hn hmod hiv => ?_⟩
  · unfold onIdentify
    simp [hname, finishWith]
  · unfold onClientKeyExchange
    simp [hiv, finishWith]
  · unfold onClientKeyExchange
    have hver : ¬verify_A_mod_N (some a) st.N := by
      rw [hn]
      unfold verify_A_mod_N
      simp [hmod]
    have hkey : createSrpKey env { st with A := some a, decrypt_iv := mkx.iv } = [] := by
      unfold createSrpKey
      simp [hver]
    simp [ha, hiv, hkey, finishWith]

/-- Closed witness for `srp_input_validation`. -/
theorem srp_input_validation_witness :
    (onIdentify env0 st0 (some { username := [] })).finished
      = some .PROTOCOL_ERROR ∧
    (onClientKeyExchange env0 stA0 (some { a := [1], iv := [] })).finished
      = some .PROTOCOL_ERROR ∧
    (onClientKeyExchange env0 stA0 (some { a := [7], iv := [1] })).finished
      = some .UNKNOWN_ERROR :=
  ⟨(srp_input_validation env0 st0 { username := [] } { a := [1], iv := [1] }).1
      (by decide),
   (srp_input_validation env0 stA0 { username := [1] } { a := [1], iv := [] }).2.1
      rfl,
   (srp_input_validation env0 stA0 { username := [1] } { a := [7], iv := [1] }).2.2
      7 7 (by decide) rfl (by decide) (by decide)⟩

/-- Claim C7: once the SRP server key is computed, the new `session_key_` is
the BLAKE2s-256 digest of the previous `session_key_` (omitted when empty)
followed by `srp_key`, identically for both negotiated ciphers; any other
`encryption_` value finishes with `UNKNOWN_ERROR` before the
`onSessionKeyChanged` hook runs. -/
theorem srp_key_mix (env : Env) (st : SAState) (m : SrpClientKeyExchange)
    (hA : BigNum.fromBytes m.a ≠ none) (hiv : m.iv ≠ [])
    (hkey : createSrpKey env
      { st with A := BigNum.fromBytes m.a, decrypt_iv := m.iv } ≠ []) :
    ((st.encryption = ENCRYPTION_AES256_GCM ∨
        st.encryption = ENCRYPTION_CHACHA20_POLY1305) →
      (onClientKeyExchange env st (some m)).st.session_key =
        env.blake2s256 ((if st.session_key = [] then [] else st.session_key) ++
          createSrpKey env
            { st with A := BigNum.fromBytes m.a, decrypt_iv := m.iv }) ∧
      (onClientKeyExchange env st (some m)).keyChanged = true) ∧
    (¬(st.encryption = ENCRYPTION_AES256_GCM ∨
        st.encryption = ENCRYPTION_CHACHA20_POLY1305) →
      (onClientKeyExchange env st (some m)).finished = some .UNKNOWN_ERROR ∧
      (onClientKeyExchange env st (some m)).keyChanged = false) := by
  unfold onClientKeyExchange
  refine ⟨fun henc => ?_, fun henc => ?_⟩
  · by_cases hr : env.onSessionKeyChangedResult = false <;>
      simp [hA, hiv, hkey, henc, hr, finishWith]
  · simp [hA, hiv, hkey, henc, finishWith]

/-- Closed witness for `srp_key_mix`. -/
theorem srp_key_mix_witness :
    (onClientKeyExchange env0 stA0 (some { a := [3], iv := [1] })).st.session_key =
      env0.blake2s256 ((if stA0.session_key = [] then [] else stA0.session_key) ++
        createSrpKey env0
          { stA0 with A := BigNum.fromBytes [3], decrypt_iv := [1] }) ∧
    (onClientKeyExchange env0 stA0 (some { a := [3], iv := [1] })).keyChanged
      = true :=
  (srp_key_mix env0 stA0 { a := [3], iv := [1] }
    (by decide) (by decide) (by decide)).1 (Or.inr (by decide))

/-- One successful configuration call preserves the configuration invariant. -/
theorem applyCall_preserves (env : CfgEnv) (cfg cfg1 : Config) (c : CfgCall)
    (hg : goodConfig cfg) (h : applyCall env cfg c = (true, cfg1)) :
    goodConfig cfg1 := by
  cases c with
  | setPriv k =>
    unfold applyCall setPrivateKey at h
    by_cases h1 : cfg.outer_state ≠ .STOPPED
    · simp [h1] at h
    · by_cases h2 : k = []
      · simp [h1, h2] at h
      · by_cases h3 : env.fromPrivateKeyValid k = false
        · simp [h1, h2, h3] at h
        · by_cases h4 : env.randomIv = []
          · simp [h1, h2, h3, h4] at h
          · simp [h1, h2, h3, h4] at h
            obtain ⟨hg1, hg2⟩ := hg
            rw [← h]
            refine ⟨fun hx => ?_, fun hx => ?_⟩
            · exact ⟨rfl, (hg1 hx).2⟩
            · exact hg2 hx
  | setAnon a m =>
    unfold applyCall setAnonymousAccess at h
    by_cases h1 : cfg.outer_state ≠ .STOPPED
    · simp [h1] at h
    · cases a with
      | DISABLE =>
        simp [h1] at h
        rw [← h]
        exact ⟨fun hx => by simp at hx, fun _ => rfl⟩
      | ENABLE =>
        by_cases h2 : cfg.key_pair_valid = false
        · simp [h1, h2] at h
        · by_cases h3 : m = 0
          · simp [h1, h2, h3] at h
          · simp [h1, h2, h3] at h
            rw [← h]
            exact ⟨fun _ => ⟨rfl, h3⟩, fun hx => by simp at hx⟩

/-- A sequence of successful configuration calls preserves the configuration
invariant. -/
theorem applyCalls_preserve (env : CfgEnv) (calls : List CfgCall) :
    ∀ cfg cfg', goodConfig cfg → applyCalls env cfg calls = some cfg' →
      goodConfig cfg' := by
  induction calls with
  | nil =>
    intro cfg cfg' hg h
    unfold applyCalls at h
    simp at h
    rwa [← h]
  | cons c cs ih =>
    intro cfg cfg' hg h
    unfold applyCalls at h
    rcases hc : applyCall env cfg c with ⟨ok, cfg1⟩
    rw [hc] at h
    cases ok
    · simp at h
    · exact ih cfg1 cfg' (applyCall_preserves env cfg cfg1 c hg hc) h

/-- Claim C9: the configuration setters return `false` and leave the
configuration unchanged unless the outer state is `STOPPED`;
`setAnonymousAccess(ENABLE, m)` succeeds only with a valid key pair and a
nonzero mask; `setAnonymousAccess(DISABLE, m)` forces `session_types_` to 0;
and any sequence of successful configuration calls preserves the invariant
that `ENABLE` implies a valid key pair and nonzero `session_types_` while
`DISABLE` implies `session_types_ = 0`. -/
theorem config_setters (env : CfgEnv) (cfg cfg' : Config) (k : Bytes) (m : Nat)
    (calls : List CfgCall) :
    (cfg.outer_state ≠ .STOPPED →
      setPrivateKey env cfg k = (false, cfg) ∧
      setAnonymousAccess cfg .ENABLE m = (false, cfg) ∧
      setAnonymousAccess cfg .DISABLE m = (false, cfg)) ∧
    ((setAnonymousAccess cfg .ENABLE m).1 = true →
      cfg.key_pair_valid = true ∧ m ≠ 0) ∧
    ((setAnonymousAccess cfg .DISABLE m).1 = true →
      (setAnonymousAccess cfg .DISABLE m).2.session_types = 0) ∧
    (goodConfig cfg → applyCalls env cfg calls = some cfg' → goodConfig cfg') := by
  refine ⟨fun h1 => ?_, fun h2 => ?_, fun h3 => ?_, fun hg h => ?_⟩
  · unfold setPrivateKey setAnonymousAccess
    simp [h1]
  · unfold setAnonymousAccess at h2
    by_cases h1 : cfg.outer_state ≠ .STOPPED
    · simp [h1] at h2
    · by_cases hk : cfg.key_pair_valid = false
      · simp [h1, hk] at h2
      · by_cases hm : m = 0
        · simp [h1, hk, hm] at h2
        · exact ⟨by simpa using hk, hm⟩
  · unfold setAnonymousAccess at h3 ⊢
    by_cases h1 : cfg.outer_state ≠ .STOPPED
    · simp [h1] at h3
    · simp [h1]
  · exact applyCalls_preserve env calls cfg cfg' hg h

/-- The default configuration of a freshly constructed authenticator. -/
def cfg0 : Config :=
  { outer_state := .STOPPED
    key_pair_valid := false
    encrypt_iv := []
    anonymous_access := .DISABLE
    session_types := 0 }

/-- A configuration whose outer state has left `STOPPED`. -/
def cfgP : Config :=
  { cfg0 with outer_state := .PENDING }

/-- A collaborator environment for the configuration setters. -/
def cenv0 : CfgEnv :=
  { fromPrivateKeyValid := fun _ => true, randomIv := [3, 4] }

/-- A stopped configuration with a valid key pair installed. -/
def cfgK : Config :=
  { cfg0 with key_pair_valid := true, encrypt_iv := [3, 4] }

/-- The configuration after enabling anonymous access with mask 5. -/
def cfgE : Config :=
  { cfgK with anonymous_access := .ENABLE, session_types := 5 }

/-- Closed witness for `config_setters`. -/
theorem config_setters_witness :
    (setPrivateKey cenv0 cfgP [1] = (false, cfgP) ∧
      setAnonymousAccess cfgP .ENABLE 5 = (false, cfgP) ∧
      setAnonymousAccess cfgP .DISABLE 5 = (false, cfgP)) ∧
    (cfgK.key_pair_valid = true ∧ (5 : Nat) ≠ 0) ∧
    goodConfig cfgE :=
  ⟨(config_setters cenv0 cfgP cfgP [1] 5 []).1 (by decide),
   (config_setters cenv0 cfgK cfg0 [1] 5 []).2.1 (by decide),
   (config_setters cenv0 cfg0 cfgE [1] 5
      [.setPriv [1], .setAnon .ENABLE 5]).2.2.2 (by decide) (by decide)⟩
